import Mathlib

/-!
Verification of the tenant-isolation enforcement layer and the
authentication-token lifecycle of a multi-tenant SaaS backend.

The definitions below are a shallow embedding of the Python sources:

* `app/core/tenant.py`   — the Tenant Scope Context (contextvars).
* `app/db/session.py`    — the Query Scoping Interceptor
  (`_enforce_tenant_scope`, `_inject_tenant_id`).
* `app/db/models/mixins.py` — `TenantScopedMixin` (its `tenant_id` column is
  declared `nullable=False`, so a flush of a row with `tenant_id = None`
  fails with an integrity error at the database).
* `app/core/security.py` — JWT encode/decode (`decode_token` raises
  `InvalidTokenError`); a JWT is modelled by its verified claims, a token
  that fails signature verification is `Jwt.malformed`, expiry is checked
  against an explicit `now`.
* `app/services/auth.py` — `AuthService` (issue/validate/revoke refresh
  tokens, password-reset tickets) over a Redis store modelled as an
  association list of string keys to values (string or integer encoded,
  as Redis keeps them) with a TTL table.
* `app/api/routes/auth.py` — `_enforce_rate_limit` and the `/refresh`
  rotation flow.
* `app/api/dependencies/tenant.py` — `get_current_tenant` resolution.

Python exceptions are modelled by the inductive `PyExc`, whose constructors
correspond to the exception *classes* raised by the code, carrying the
message / HTTP detail string.  UUID values are modelled as their string
form (the code compares them via `str(...)` or stores them stringified),
and `uuid.UUID(str(x))` round-trips are modelled as the identity on these
strings.  Randomly generated identifiers (`jti`, reset tokens) are passed
in as explicit parameters.
-/

/-- Python exception classes raised by the embedded code, with the message
(`InvalidTokenError`, the database's `IntegrityError` for a violated
`nullable=False` column, FastAPI's `HTTPException` with status code and
detail, and a `KeyError` for a missing dict key). -/
inductive PyExc where
  | invalidTokenError (msg : String)
  | integrityError (msg : String)
  | httpException (statusCode : Nat) (detail : String)
  | keyError (key : String)
deriving DecidableEq, Repr

/-- The Python exception class name of a raised exception: two failures are
of the same *kind* for a caller's `except` clause exactly when their class
names agree. -/
def excClass : PyExc → String
  | .invalidTokenError _ => "InvalidTokenError"
  | .integrityError _ => "IntegrityError"
  | .httpException _ _ => "HTTPException"
  | .keyError _ => "KeyError"

/-- `str(exc)` for the exceptions above (the message / detail). -/
def excMsg : PyExc → String
  | .invalidTokenError m => m
  | .integrityError m => m
  | .httpException _ d => d
  | .keyError k => k

/-! ## Tenant Scope Context — `app/core/tenant.py`

The two context variables `_tenant_id_ctx` and `_tenant_slug_ctx` are
modelled as one `ScopeState`; a `contextvars.Token` remembers the value the
variable held when `set` was called, and `reset` restores exactly that
value. -/

/-- The values of `_tenant_id_ctx` and `_tenant_slug_ctx` (both default
`None`). -/
structure ScopeState where
  tenant_id : Option String
  tenant_slug : Option String
deriving DecidableEq, Repr

/-- `TenantToken`: the pair of contextvar tokens returned by
`set_current_tenant`; each token carries the value its variable held just
before the `set`. -/
structure TenantToken where
  tenant_id_old : Option String
  tenant_slug_old : Option String
deriving DecidableEq, Repr

/-- `set_current_tenant(tenant_id, tenant_slug)`: set both context
variables and return the token pair capturing their previous values. -/
def set_current_tenant (s : ScopeState) (tenantId : String)
    (tenantSlug : Option String) : ScopeState × TenantToken :=
  (⟨some tenantId, tenantSlug⟩, ⟨s.tenant_id, s.tenant_slug⟩)

/-- `reset_current_tenant(token)`: reset both context variables to the
values captured in the token (the previous values, not the defaults). -/
def reset_current_tenant (_s : ScopeState) (token : TenantToken) : ScopeState :=
  ⟨token.tenant_id_old, token.tenant_slug_old⟩

/-- `current_tenant_id()`. -/
def current_tenant_id (s : ScopeState) : Option String :=
  s.tenant_id

/-- `tenant_context(tenant_id, tenant_slug)`: bind the scope, run the body,
and reset in a `finally` block, so the reset happens on the ok exit and on
the error exit alike.  The body is any state transformer returning a normal
result or a raised exception together with the scope state it left behind
(so the body itself may rebind and release nested scopes). -/
def tenant_context {α : Type} (tenantId : String) (tenantSlug : Option String)
    (body : ScopeState → Except PyExc α × ScopeState) (s : ScopeState) :
    Except PyExc α × ScopeState :=
  let p := set_current_tenant s tenantId tenantSlug
  let r := body p.1
  (r.1, reset_current_tenant r.2 p.2)

/-- C9: for every prior scope state `S` — including a bound outer scope, so
nested rebinding is covered — and every body (normal return or raise,
itself free to rebind the scope), `tenant_context` restores the scope to
exactly `S` on exit; moreover the body runs with the new tenant bound. -/
theorem tenant_context_restores_prior_scope {α : Type}
    (S : ScopeState) (tenantId : String) (tenantSlug : Option String)
    (body : ScopeState → Except PyExc α × ScopeState) :
    (tenant_context tenantId tenantSlug body S).2 = S ∧
      (set_current_tenant S tenantId tenantSlug).1 =
        ⟨some tenantId, tenantSlug⟩ := by
  constructor
  · cases S
    rfl
  · rfl

/-! ## Query Scoping Interceptor — `app/db/session.py`

`_enforce_tenant_scope` listens on `do_orm_execute`: for a SELECT whose
`tenant_aware` execution option is not `False`, while a tenant is bound, it
attaches `with_loader_criteria(TenantScopedMixin, cls.tenant_id == tid)`.
A statement is modelled as its SELECT flag, its `tenant_aware` option (the
option defaults to `True` when not given), its own WHERE predicate over
rows, and the attached loader criteria (`none` before interception).
Executing a SELECT returns the rows of the table satisfying the predicate
and the criteria. -/

/-- A persisted row of a tenant-scoped entity (`TenantScopedMixin` gives it
a non-null `tenant_id`; `payload` stands for all its other columns). -/
structure Row where
  tenant_id : String
  payload : String
deriving DecidableEq, Repr

/-- An ORM statement as seen by the `do_orm_execute` listener. -/
structure OrmStatement where
  is_select : Bool
  tenant_aware : Bool
  pred : Row → Bool
  criteria : Option String

/-- `_enforce_tenant_scope(orm_execute_state)`: skip non-SELECTs and
statements whose `tenant_aware` option is `False`; skip when no tenant is
bound; otherwise attach the tenant criteria. -/
def _enforce_tenant_scope (currentTenant : Option String)
    (st : OrmStatement) : OrmStatement :=
  if !st.is_select || st.tenant_aware == false then st
  else
    match currentTenant with
    | none => st
    | some tid => { st with criteria := some tid }

/-- Execute a SELECT statement against a table: a row is returned when it
satisfies the statement's own predicate and the attached loader criteria
(if any). -/
def runSelect (table : List Row) (st : OrmStatement) : List Row :=
  table.filter fun r =>
    st.pred r &&
      match st.criteria with
      | none => true
      | some tid => r.tenant_id == tid

/-- C1: a SELECT of a tenant-scoped entity, executed tenant-aware (the
isolation-exempt option not set) with fresh criteria while tenant `A` is
bound, returns only rows with `tenant_id = A`; in particular no row of any
tenant `B ≠ A` is returned, whatever the statement's other predicate. -/
theorem tenant_scoped_select_isolation
    (table : List Row) (pred : Row → Bool) (A : String) (r : Row)
    (hmem : r ∈ runSelect table
      (_enforce_tenant_scope (some A) ⟨true, true, pred, none⟩)) :
    r.tenant_id = A ∧ ∀ B : String, B ≠ A → r.tenant_id ≠ B := by
  have henf : _enforce_tenant_scope (some A) ⟨true, true, pred, none⟩ =
      ⟨true, true, pred, some A⟩ := rfl
  rw [henf] at hmem
  simp only [runSelect, List.mem_filter, Bool.and_eq_true, beq_iff_eq] at hmem
  exact ⟨hmem.2.2, fun B hB hrB => hB (hrB ▸ hmem.2.2)⟩

/-- Witness for C1: in a table with rows of tenants `"a"` and `"b"`, the
select intercepted under tenant `"a"` returns a row, and that row's tenant
is `"a"`, not `"b"`. -/
theorem tenant_scoped_select_isolation_witness :
    (⟨"a", "x"⟩ : Row) ∈ runSelect [⟨"a", "x"⟩, ⟨"b", "x"⟩]
        (_enforce_tenant_scope (some "a") ⟨true, true, fun r => r.payload == "x", none⟩) ∧
      (⟨"a", "x"⟩ : Row).tenant_id = "a" ∧
        ∀ B : String, B ≠ "a" → (⟨"a", "x"⟩ : Row).tenant_id ≠ B := by
  have hmem : (⟨"a", "x"⟩ : Row) ∈ runSelect [⟨"a", "x"⟩, ⟨"b", "x"⟩]
      (_enforce_tenant_scope (some "a") ⟨true, true, fun r => r.payload == "x", none⟩) := by
    simp [runSelect, _enforce_tenant_scope]
  exact ⟨hmem, tenant_scoped_select_isolation _ _ _ _ hmem⟩

/-- C6: when no tenant is bound, `_enforce_tenant_scope` leaves even a
tenant-aware SELECT completely unchanged — no tenant criteria is attached,
no failure is raised, and execution returns every row its own predicate
admits, regardless of the row's tenant. -/
theorem unscoped_select_unfiltered
    (table : List Row) (pred : Row → Bool) :
    _enforce_tenant_scope none ⟨true, true, pred, none⟩ =
        ⟨true, true, pred, none⟩ ∧
      runSelect table (_enforce_tenant_scope none ⟨true, true, pred, none⟩) =
        table.filter pred := by
  constructor
  · rfl
  · simp [_enforce_tenant_scope, runSelect]

/-! ### Insert stamping — `_inject_tenant_id` and `TenantScopedMixin`

`_inject_tenant_id` listens on `before_flush`: while a tenant is bound it
stamps every new tenant-scoped instance whose `tenant_id` is still `None`;
with no tenant bound it returns without touching anything.  The
`TenantScopedMixin.tenant_id` column is declared `nullable=False`
(`app/db/models/mixins.py`), so flushing an instance whose `tenant_id` is
still `None` fails with the database's NOT NULL integrity error. -/

/-- A new (not yet flushed) tenant-scoped instance in `session.new`: its
`tenant_id` attribute may still be `None`. -/
structure PendingRow where
  tenant_id : Option String
  payload : String
deriving DecidableEq, Repr

/-- `_inject_tenant_id(session, ...)`: if no tenant is bound, return; else
set `tenant_id` on every new instance whose `tenant_id` is `None`. -/
def _inject_tenant_id (currentTenant : Option String)
    (session_new : List PendingRow) : List PendingRow :=
  match currentTenant with
  | none => session_new
  | some tid =>
    session_new.map fun inst =>
      if inst.tenant_id = none then { inst with tenant_id := some tid } else inst

/-- The database writing one flushed instance: the `nullable=False`
constraint on `TenantScopedMixin.tenant_id` rejects a `None` tenant with an
integrity error; otherwise the row is persisted. -/
def writeRow (inst : PendingRow) : Except PyExc Row :=
  match inst.tenant_id with
  | none => .error (.integrityError "null value in column tenant_id violates not-null constraint")
  | some tid => .ok ⟨tid, inst.payload⟩

/-- A flush of the session's new instances: the `before_flush` hook runs
first, then each instance is written. -/
def flushNew (currentTenant : Option String) (session_new : List PendingRow) :
    Except PyExc (List Row) :=
  (_inject_tenant_id currentTenant session_new).mapM writeRow

/-- C2: inserting a tenant-scoped instance whose `tenant_id` is unset:
with tenant `A` bound the flush succeeds and the persisted row's tenant is
`A`; with no tenant bound the flush raises (the NOT NULL integrity error)
instead of writing a tenant-less row. -/
theorem insert_stamps_tenant_or_fails (A payload : String) :
    flushNew (some A) [⟨none, payload⟩] = .ok [⟨A, payload⟩] ∧
      flushNew none [⟨none, payload⟩] =
        .error (.integrityError
          "null value in column tenant_id violates not-null constraint") := by
  constructor <;> rfl

/-! ## Shared Ephemeral Store — Redis, as used by `app/core/redis.py` callers

The store is an association list from string keys to string values together
with a TTL table.  Each definition below is one atomic Redis primitive
(`GET`, `SETEX`, `DEL`, `EXISTS`, `INCR`, `EXPIRE`); the Python code only
ever composes these primitives. -/

/-- A stored Redis value, in the two encodings Redis keeps internally: a
plain string (what `SETEX` writes) or an integer (what `INCR` maintains;
`GET` renders it as its decimal string). -/
inductive RVal where
  | str (s : String)
  | int (n : Nat)
deriving DecidableEq, Repr

/-- The decimal string a client sees when reading a value. -/
def RVal.render : RVal → String
  | .str s => s
  | .int n => toString n

/-- The Redis keyspace: current values and per-key TTLs (seconds). -/
structure RedisState where
  data : List (String × RVal)
  ttl : List (String × Nat)
deriving DecidableEq, Repr

/-- The empty store. -/
def RedisState.empty : RedisState := ⟨[], []⟩

/-- The stored value of a key (internal lookup). -/
def redisGet (s : RedisState) (k : String) : Option RVal :=
  (s.data.find? fun p => p.1 == k).map Prod.snd

/-- `GET key`, as the client string the Python code receives. -/
def redisGetStr (s : RedisState) (k : String) : Option String :=
  (redisGet s k).map RVal.render

/-- `DEL key`: removes the value and any TTL. -/
def redisDel (s : RedisState) (k : String) : RedisState :=
  ⟨s.data.filter fun p => p.1 != k, s.ttl.filter fun p => p.1 != k⟩

/-- `EXPIRE key seconds`: set the TTL of an existing key. -/
def redisExpire (s : RedisState) (k : String) (seconds : Nat) : RedisState :=
  ⟨s.data, (k, seconds) :: s.ttl.filter fun p => p.1 != k⟩

/-- `SETEX key seconds value`: set the value and the TTL together. -/
def redisSetex (s : RedisState) (k : String) (seconds : Nat) (v : String) :
    RedisState :=
  ⟨(k, .str v) :: s.data.filter fun p => p.1 != k,
    (k, seconds) :: s.ttl.filter fun p => p.1 != k⟩

/-- `EXISTS key` (as the boolean the Python code treats it as). -/
def redisExists (s : RedisState) (k : String) : Bool :=
  (redisGet s k).isSome

/-- `INCR key`: atomically increment the integer value of the key — an
absent key counts as 0 — store it back in the integer encoding and return
the new count.  A string value is interpreted as its decimal reading (the
verified flows never `INCR` a `SETEX`-written key, so that branch is
unexercised).  TTLs are untouched. -/
def redisIncr (s : RedisState) (k : String) : RedisState × Nat :=
  let old : Nat :=
    match redisGet s k with
    | none => 0
    | some (.int n) => n
    | some (.str v) => (v.toNat?).getD 0
  let n := old + 1
  (⟨(k, .int n) :: s.data.filter fun p => p.1 != k, s.ttl⟩, n)

/-- `TTL key` — used only to observe the expiry the code set. -/
def redisTtl (s : RedisState) (k : String) : Option Nat :=
  (s.ttl.find? fun p => p.1 == k).map Prod.snd

/-! ## Token Codec — `app/core/security.py`

A JWT is modelled by its claims when the signature verifies, and by
`Jwt.malformed` when it does not (bad signature, wrong issuer/audience,
garbage).  `decode_token` additionally rejects an expired token; both
failures raise `InvalidTokenError`, with the messages of
`app/core/security.py`. -/

/-- The claims of a token built by `_build_claims` (fields not examined by
the verified code paths — `iat`, `nbf`, `iss`, `aud`, `roles` — are
omitted).  `tenant_id` is optional because `decode_token` accepts any
well-signed JWT, and the resolver code probes it with `payload.get`. -/
structure TokenClaims where
  sub : String
  tenant_id : Option String
  scope : String
  exp : Nat
  jti : String
deriving DecidableEq, Repr

/-- A token string, as far as verification can distinguish tokens. -/
inductive Jwt where
  | malformed
  | signed (claims : TokenClaims)
deriving DecidableEq, Repr

/-- `decode_token(token, settings)` at time `now`: raise
`InvalidTokenError("Invalid token")` for a token that does not verify,
`InvalidTokenError("Token expired")` for one past its `exp`, and return the
payload otherwise. -/
def decode_token (token : Jwt) (now : Nat) : Except PyExc TokenClaims :=
  match token with
  | .malformed => .error (.invalidTokenError "Invalid token")
  | .signed c =>
    if c.exp ≤ now then .error (.invalidTokenError "Token expired")
    else .ok c

/-! ## Session/Token Service — `app/services/auth.py`

The module constants `REFRESH_TOKEN_PREFIX = "refresh:"` and
`PASSWORD_RESET_PREFIX = "pwdreset:"` are inlined as the string literals
they stand for; `PASSWORD_RESET_TTL_SECONDS = 3600`. -/

/-- The key of a refresh token's liveness record:
`f"refresh:{jti}"`. -/
def refreshKey (jti : String) : String := "refresh:" ++ jti

/-- The key of a password-reset ticket: `f"pwdreset:{token}"`. -/
def pwdresetKey (token : String) : String := "pwdreset:" ++ token

/-- `PASSWORD_RESET_TTL_SECONDS`. -/
def PASSWORD_RESET_TTL_SECONDS : Nat := 3600

/-- The settings fields the token lifecycle reads. -/
structure Settings where
  jwt_access_token_expires_minutes : Nat
  jwt_refresh_token_expires_minutes : Nat
deriving DecidableEq, Repr

/-- `TokenPair` (the `token_type` field is the constant `"bearer"`). -/
structure TokenPair where
  access_token : Jwt
  refresh_token : Jwt
  expires_in : Nat
deriving DecidableEq, Repr

/-- `AuthService.issue_token_pair(user, tenant, settings, redis)` at time
`now`.  The random `jti` of each token (`secrets.token_hex(16)`) is passed
in explicitly.  Builds access claims (`scope="access"`, short TTL) and
refresh claims (`scope="refresh"`, long TTL), registers the refresh
token's liveness record `refresh:<jti> ↦ user_id` with the refresh TTL,
and returns both signed tokens with the access lifetime in seconds. -/
def issue_token_pair (userId tenantId : String) (settings : Settings)
    (redis : RedisState) (now : Nat) (accessJti refreshJti : String) :
    TokenPair × RedisState :=
  let accessClaims : TokenClaims :=
    ⟨userId, some tenantId, "access",
      now + settings.jwt_access_token_expires_minutes * 60, accessJti⟩
  let refreshClaims : TokenClaims :=
    ⟨userId, some tenantId, "refresh",
      now + settings.jwt_refresh_token_expires_minutes * 60, refreshJti⟩
  let refresh_ttl := settings.jwt_refresh_token_expires_minutes * 60
  let redis' := redisSetex redis (refreshKey refreshJti) refresh_ttl userId
  (⟨.signed accessClaims, .signed refreshClaims,
    settings.jwt_access_token_expires_minutes * 60⟩, redis')

/-- `AuthService.validate_refresh_token(token, settings, redis)` at time
`now`: decode (raises `InvalidTokenError` on malformed/expired), reject a
scope other than `"refresh"`, then require the liveness record
`refresh:<jti>` to exist, raising
`InvalidTokenError("Refresh token has been revoked")` when it is absent. -/
def validate_refresh_token (token : Jwt) (now : Nat) (redis : RedisState) :
    Except PyExc TokenClaims :=
  match decode_token token now with
  | .error e => .error e
  | .ok payload =>
    if payload.scope ≠ "refresh" then
      .error (.invalidTokenError "Invalid refresh token scope")
    else if !redisExists redis (refreshKey payload.jti) then
      .error (.invalidTokenError "Refresh token has been revoked")
    else
      .ok payload

/-- `AuthService.revoke_refresh_token(redis, jti)`: a falsy (empty) `jti`
is a no-op, otherwise delete the liveness record (idempotently). -/
def revoke_refresh_token (redis : RedisState) (jti : String) : RedisState :=
  if jti = "" then redis else redisDel redis (refreshKey jti)

/-! ## The `/auth/refresh` rotation flow — `app/api/routes/auth.py` -/

/-- The `POST /auth/refresh` route: validate the presented refresh token
(an `InvalidTokenError` is re-raised as HTTP 401 with the same message),
read `refresh_payload["tenant_id"]` (a `KeyError` if absent), load the
tenant (404 when missing) and the user (401 when missing) — both lookups
are modelled by their success flags — then revoke the consumed token's
liveness record and issue a brand-new pair.  Database auditing and the
tenant-context binding around issuance do not touch the token store and
are omitted. -/
def refresh_route (tokenIn : Jwt) (now : Nat) (redis : RedisState)
    (settings : Settings) (tenantExists userExists : Bool)
    (accessJti refreshJti : String) : Except PyExc (TokenPair × RedisState) :=
  match validate_refresh_token tokenIn now redis with
  | .error e => .error (.httpException 401 (excMsg e))
  | .ok refresh_payload =>
    match refresh_payload.tenant_id with
    | none => .error (.keyError "tenant_id")
    | some tenantId =>
      if !tenantExists then .error (.httpException 404 "Tenant not found")
      else if !userExists then .error (.httpException 401 "User not found")
      else
        let redis1 := revoke_refresh_token redis refresh_payload.jti
        .ok (issue_token_pair refresh_payload.sub tenantId settings redis1 now
          accessJti refreshJti)

/-- Inversion of a successful refresh validation: the returned payload is
the token's claims, the token is a live, unexpired refresh token. -/
theorem validate_refresh_token_ok_inv {c p : TokenClaims} {now : Nat}
    {redis : RedisState}
    (h : validate_refresh_token (.signed c) now redis = .ok p) :
    p = c ∧ now < c.exp ∧ c.scope = "refresh" ∧
      redisExists redis (refreshKey c.jti) = true := by
  by_cases hexp : c.exp ≤ now
  · simp [validate_refresh_token, decode_token, hexp] at h
  · by_cases hscope : c.scope = "refresh"
    · by_cases hlive : redisExists redis (refreshKey c.jti)
      · simp [validate_refresh_token, decode_token, hexp, hscope, hlive] at h
        exact ⟨h.symm, Nat.lt_of_not_le hexp, hscope, hlive⟩
      · simp [validate_refresh_token, decode_token, hexp, hscope, hlive] at h
    · simp [validate_refresh_token, decode_token, hexp, hscope] at h

/-- Appending to a fixed head string is injective (needed to separate the
freshly issued liveness key from the revoked one). -/
theorem string_append_cancel_left {p s t : String} (h : p ++ s = p ++ t) :
    s = t := by
  have hd := congrArg String.data h
  simp only [String.data_append] at hd
  exact String.ext (List.append_cancel_left hd)

/-- A key deleted from the store is not found again after an unrelated
`SETEX`. -/
theorem redisGet_setex_del_ne (s : RedisState) (k k' v : String)
    (seconds : Nat) (hne : k ≠ k') :
    redisGet (redisSetex (redisDel s k) k' seconds v) k = none := by
  have hfind : List.find? (fun p => p.1 == k)
      ((k', RVal.str v) ::
        ((s.data.filter fun p => p.1 != k).filter fun p => p.1 != k')) =
      none := by
    rw [List.find?_eq_none]
    intro x hx
    rcases List.mem_cons.mp hx with h1 | h2
    · subst h1
      simp only [beq_iff_eq]
      exact fun h => hne h.symm
    · have hx1 : x ∈ s.data.filter fun p => p.1 != k :=
        List.mem_of_mem_filter h2
      simp only [beq_iff_eq]
      exact bne_iff_ne.mp (List.mem_filter.mp hx1).2
  simp only [redisGet, redisSetex, redisDel, hfind, Option.map_none']

/-- C3: once a refresh token has been successfully used to rotate (the
`/auth/refresh` route validated it, revoked its liveness record and issued
a new pair), every later validation of that same token fails with the
revoked failure — `InvalidTokenError("Refresh token has been revoked")` —
even at a time `now'` before its signed expiry.  The freshly issued
refresh `jti` differs from the consumed one (both are 32-hex-char random
strings; a collision would be a different token), and the consumed token's
`jti` is nonempty, as `secrets.token_hex(16)` guarantees. -/
theorem rotated_refresh_token_fails_revoked
    (c : TokenClaims) (now now' : Nat) (redis : RedisState)
    (settings : Settings) (accessJti refreshJti : String)
    (pair : TokenPair) (redis' : RedisState)
    (hrot : refresh_route (.signed c) now redis settings true true
      accessJti refreshJti = .ok (pair, redis'))
    (hjti : c.jti ≠ "")
    (hfresh : refreshJti ≠ c.jti)
    (hexp : now' < c.exp) :
    validate_refresh_token (.signed c) now' redis' =
      .error (.invalidTokenError "Refresh token has been revoked") := by
  unfold refresh_route at hrot
  cases hval : validate_refresh_token (.signed c) now redis with
  | error e => rw [hval] at hrot; exact absurd hrot (by simp)
  | ok p =>
    rw [hval] at hrot
    obtain ⟨hp, _, hscope, _⟩ := validate_refresh_token_ok_inv hval
    subst hp
    have hrot2 : (match p.tenant_id with
        | none => Except.error (PyExc.keyError "tenant_id")
        | some tenantId => Except.ok
            (issue_token_pair p.sub tenantId settings
              (revoke_refresh_token redis p.jti) now accessJti refreshJti)) =
        Except.ok (pair, redis') := hrot
    cases htid : p.tenant_id with
    | none => rw [htid] at hrot2; exact absurd hrot2 (by simp)
    | some tid =>
      rw [htid] at hrot2
      have hrot' : Except.ok (ε := PyExc)
          (issue_token_pair p.sub tid settings
            (revoke_refresh_token redis p.jti) now accessJti refreshJti) =
          Except.ok (pair, redis') := hrot2
      have hredis' : redis' =
          redisSetex (revoke_refresh_token redis p.jti)
            (refreshKey refreshJti)
            (settings.jwt_refresh_token_expires_minutes * 60) p.sub := by
        have heq := Except.ok.inj hrot'
        exact (congrArg Prod.snd heq).symm
      have hdead : redisExists redis' (refreshKey p.jti) = false := by
        rw [hredis', revoke_refresh_token, if_neg hjti]
        have hkne : refreshKey p.jti ≠ refreshKey refreshJti := by
          intro h
          exact hfresh (string_append_cancel_left h).symm
        simp only [redisExists]
        rw [redisGet_setex_del_ne _ _ _ _ _ hkne]
        rfl
      simp [validate_refresh_token, decode_token, Nat.not_le.mpr hexp,
        hscope, hdead]

/-- Witness for C3: a concrete rotation in a store holding the consumed
token's liveness record, followed by a failed re-validation. -/
theorem rotated_refresh_token_fails_revoked_witness :
    refresh_route (.signed ⟨"u1", some "t1", "refresh", 100, "j1"⟩) 10
        ⟨[("refresh:j1", RVal.str "u1")], [("refresh:j1", 600)]⟩ ⟨15, 60⟩ true true
        "ja2" "jr2" =
      .ok (issue_token_pair "u1" "t1" ⟨15, 60⟩
        (redisDel ⟨[("refresh:j1", RVal.str "u1")], [("refresh:j1", 600)]⟩ "refresh:j1")
        10 "ja2" "jr2") ∧
    validate_refresh_token (.signed ⟨"u1", some "t1", "refresh", 100, "j1"⟩) 50
        (refresh_route (.signed ⟨"u1", some "t1", "refresh", 100, "j1"⟩) 10
          ⟨[("refresh:j1", RVal.str "u1")], [("refresh:j1", 600)]⟩ ⟨15, 60⟩ true true
          "ja2" "jr2" |>.toOption.map Prod.snd |>.getD RedisState.empty) =
      .error (.invalidTokenError "Refresh token has been revoked") := by
  constructor
  · rfl
  · exact rotated_refresh_token_fails_revoked
      ⟨"u1", some "t1", "refresh", 100, "j1"⟩ 10 50
      ⟨[("refresh:j1", RVal.str "u1")], [("refresh:j1", 600)]⟩ ⟨15, 60⟩ "ja2" "jr2"
      _ _ rfl (by decide) (by decide) (by decide)

/-! ### C4 — failure kinds of `validate_refresh_token`

`app/services/auth.py` raises the *same* exception class,
`InvalidTokenError`, both for decode failures and for a missing liveness
record (line 70: `raise InvalidTokenError("Refresh token has been
revoked")`); there is no separate `TokenRevoked` exception class, and the
route's `except InvalidTokenError` catches both identically.  The two
cases differ only in the message string. -/

/-- C4 counterexample: a well-signed, unexpired refresh token whose
liveness record is absent fails, but with the exception class
`InvalidTokenError` — the very same class raised for a malformed token —
so the claimed distinct failure kind `TokenRevoked` does not exist and the
caller cannot distinguish the two by kind. -/
theorem revoked_failure_not_distinct_kind :
    validate_refresh_token (.signed ⟨"u1", some "t1", "refresh", 100, "j1"⟩)
        0 RedisState.empty =
      .error (.invalidTokenError "Refresh token has been revoked") ∧
    decode_token .malformed 0 = .error (.invalidTokenError "Invalid token") ∧
    excClass (.invalidTokenError "Refresh token has been revoked") =
      excClass (.invalidTokenError "Invalid token") := by
  exact ⟨rfl, rfl, rfl⟩

/-- C4 (amended): `validate_refresh_token` fails with
`InvalidTokenError("Invalid token")` when the token is malformed, with
`InvalidTokenError("Token expired")` when expired, with
`InvalidTokenError("Invalid refresh token scope")` for a scope other than
`"refresh"`, and with `InvalidTokenError("Refresh token has been
revoked")` when the token decodes and verifies but its liveness record is
absent; all four failures are the same exception class, distinguishable by
the caller only through the message string. -/
theorem validate_refresh_failure_modes (c : TokenClaims) (now : Nat)
    (redis : RedisState) :
    validate_refresh_token .malformed now redis =
        .error (.invalidTokenError "Invalid token") ∧
      (c.exp ≤ now → validate_refresh_token (.signed c) now redis =
        .error (.invalidTokenError "Token expired")) ∧
      (now < c.exp → c.scope ≠ "refresh" →
        validate_refresh_token (.signed c) now redis =
          .error (.invalidTokenError "Invalid refresh token scope")) ∧
      (now < c.exp → c.scope = "refresh" →
        redisExists redis (refreshKey c.jti) = false →
        validate_refresh_token (.signed c) now redis =
          .error (.invalidTokenError "Refresh token has been revoked")) ∧
      ∀ e₁ e₂ : String, excClass (.invalidTokenError e₁) =
        excClass (.invalidTokenError e₂) := by
  refine ⟨rfl, ?_, ?_, ?_, fun _ _ => rfl⟩
  · intro hexp
    simp [validate_refresh_token, decode_token, hexp]
  · intro hexp hscope
    simp [validate_refresh_token, decode_token, Nat.not_le.mpr hexp, hscope]
  · intro hexp hscope hdead
    simp [validate_refresh_token, decode_token, Nat.not_le.mpr hexp,
      hscope, hdead]

/-- Witness for the amended C4: each failure mode at a concrete input. -/
theorem validate_refresh_failure_modes_witness :
    validate_refresh_token .malformed 5 RedisState.empty =
        .error (.invalidTokenError "Invalid token") ∧
      validate_refresh_token
          (.signed ⟨"u", some "t", "refresh", 3, "j"⟩) 5 RedisState.empty =
        .error (.invalidTokenError "Token expired") ∧
      validate_refresh_token
          (.signed ⟨"u", some "t", "access", 9, "j"⟩) 5 RedisState.empty =
        .error (.invalidTokenError "Invalid refresh token scope") ∧
      validate_refresh_token
          (.signed ⟨"u", some "t", "refresh", 9, "j"⟩) 5 RedisState.empty =
        .error (.invalidTokenError "Refresh token has been revoked") := by
  refine ⟨(validate_refresh_failure_modes ⟨"u", some "t", "refresh", 3, "j"⟩
    5 RedisState.empty).1, ?_, ?_, ?_⟩
  · exact (validate_refresh_failure_modes ⟨"u", some "t", "refresh", 3, "j"⟩
      5 RedisState.empty).2.1 (by decide)
  · exact (validate_refresh_failure_modes ⟨"u", some "t", "access", 9, "j"⟩
      5 RedisState.empty).2.2.1 (by decide) (by decide)
  · exact (validate_refresh_failure_modes ⟨"u", some "t", "refresh", 9, "j"⟩
      5 RedisState.empty).2.2.2.1 (by decide) (by decide) rfl

/-! ## Password-reset tickets — `app/services/auth.py`

`create_password_reset_token` writes `pwdreset:<token> ↦
"{tenant_id}:{user_id}"` with a one-hour TTL.
`consume_password_reset_token` issues a `GET` and, when the record is
present, a *separate* `DEL` — two store round-trips, not one atomic
read-and-delete. -/

/-- `AuthService.create_password_reset_token(redis, settings, tenant_id,
user_id)`; the random ticket (`secrets.token_urlsafe(32)`) is a
parameter. -/
def create_password_reset_token (redis : RedisState)
    (tenantId userId token : String) : RedisState :=
  redisSetex redis (pwdresetKey token) PASSWORD_RESET_TTL_SECONDS
    (tenantId ++ ":" ++ userId)

/-- Split a character list at the first `':'`. -/
def splitColon : List Char → List Char × List Char
  | [] => ([], [])
  | c :: rest =>
    if c = ':' then ([], rest)
    else
      let r := splitColon rest
      (c :: r.1, r.2)

/-- Parse the stored `"{tenant_id}:{user_id}"` payload (`data.split(":")`
unpacked into the two ids; tenant and user ids are UUID strings, which
contain no `':'`). -/
def splitTicketData (data : String) : String × String :=
  (⟨(splitColon data.data).1⟩, ⟨(splitColon data.data).2⟩)

/-- `AuthService.consume_password_reset_token(redis, token)`: `GET` the
record; when absent return `None`; when present `DEL` it with a second
store call and return the parsed pair. -/
def consume_password_reset_token (redis : RedisState) (token : String) :
    Option (String × String) × RedisState :=
  match redisGetStr redis (pwdresetKey token) with
  | none => (none, redis)
  | some data => (some (splitTicketData data), redisDel redis (pwdresetKey token))

/-- One in-flight `consume_password_reset_token` call, between its two
store operations: before its `GET`, after its `GET` holding the data it
read, or returned with its result. -/
inductive ConsumeProc where
  | beforeGet
  | afterGet (data : Option String)
  | done (result : Option (String × String))
deriving DecidableEq, Repr

/-- One atomic step of an in-flight consume call against the shared store:
the `GET`, then — only if the `GET` saw data — the `DEL` and the return.
Each step is one store round-trip, exactly as the Python issues them. -/
def consumeStep (token : String) (p : ConsumeProc) (redis : RedisState) :
    ConsumeProc × RedisState :=
  match p with
  | .beforeGet => (.afterGet (redisGetStr redis (pwdresetKey token)), redis)
  | .afterGet none => (.done none, redis)
  | .afterGet (some data) =>
    (.done (some (splitTicketData data)), redisDel redis (pwdresetKey token))
  | .done r => (.done r, redis)

/-- Two concurrent consume calls for the same ticket over the shared
store. -/
structure TwoConsumers where
  p1 : ConsumeProc
  p2 : ConsumeProc
  redis : RedisState
deriving DecidableEq, Repr

/-- Run the two calls under a schedule: `true` steps the first call,
`false` the second. -/
def runTwoConsumers (token : String) : List Bool → TwoConsumers → TwoConsumers
  | [], s => s
  | b :: rest, s =>
    if b then
      let r := consumeStep token s.p1 s.redis
      runTwoConsumers token rest ⟨r.1, s.p2, r.2⟩
    else
      let r := consumeStep token s.p2 s.redis
      runTwoConsumers token rest ⟨s.p1, r.1, r.2⟩

/-- C5 failing input: ticket `"tok"` for `(tenant "T", user "U")`, two
concurrent consume calls interleaved `GET₁, GET₂, DEL₁, DEL₂`.  Both calls
return the redeemed pair — two redemptions succeed, because the read and
the delete are separate store operations, not one atomic read-and-delete.
Sequentially the code is single-use (the second conjunct: a consume after
a completed consume returns `None`), so the schedule above is the
violating interleaving. -/
theorem concurrent_reset_consume_double_redeems :
    (let final := runTwoConsumers "tok" [true, false, true, false]
      ⟨.beforeGet, .beforeGet,
        create_password_reset_token RedisState.empty "T" "U" "tok"⟩
     final.p1 = .done (some ("T", "U")) ∧
       final.p2 = .done (some ("T", "U"))) ∧
    (let afterFirst :=
      consume_password_reset_token
        (create_password_reset_token RedisState.empty "T" "U" "tok") "tok"
     afterFirst.1 = some ("T", "U") ∧
       (consume_password_reset_token afterFirst.2 "tok").1 = none) := by
  exact ⟨⟨rfl, rfl⟩, ⟨rfl, rfl⟩⟩

/-! ## Rate Limiter — `_enforce_rate_limit` in `app/api/routes/auth.py` -/

/-- The rate-limit counter key `f"ratelimit:{prefix}:{identifier}"` (the
route passes the endpoint's purpose — `"login"`, `"register-tenant"`,
`"forgot"` — as the prefix argument). -/
def rlKey (purpose identifier : String) : String :=
  "ratelimit:" ++ purpose ++ ":" ++ identifier

/-- `_enforce_rate_limit(redis, prefix, identifier, limit,
window_seconds)`: `INCR` the counter; if this call performed the window's
first increment (the new count is 1) set the key's expiry to the window;
raise HTTP 429 "Rate limit exceeded" when the count exceeds the limit,
return normally otherwise. -/
def _enforce_rate_limit (redis : RedisState) (purpose identifier : String)
    (limit window_seconds : Nat) : Except PyExc Unit × RedisState :=
  let key := rlKey purpose identifier
  let r := redisIncr redis key
  let current := r.2
  let redis2 :=
    if current = 1 then redisExpire r.1 key window_seconds else r.1
  if current > limit then
    (.error (.httpException 429 "Rate limit exceeded"), redis2)
  else
    (.ok (), redis2)

/-- The store after `k` successive `_enforce_rate_limit` calls for the same
`(purpose, identifier)` within one window. -/
def rateLimitSeq (purpose identifier : String) (limit window_seconds : Nat) :
    Nat → RedisState → RedisState
  | 0, s => s
  | k + 1, s =>
    (_enforce_rate_limit
      (rateLimitSeq purpose identifier limit window_seconds k s)
      purpose identifier limit window_seconds).2

/-- `INCR` leaves the new count at the key. -/
theorem redisGet_incr_self (s : RedisState) (k : String) :
    redisGet (redisIncr s k).1 k = some (.int (redisIncr s k).2) := by
  simp [redisGet, redisIncr, List.find?_cons]

/-- `EXPIRE` does not change any stored value. -/
theorem redisGet_expire (s : RedisState) (k k' : String) (w : Nat) :
    redisGet (redisExpire s k w) k' = redisGet s k' := rfl

/-- `EXPIRE` sets the key's TTL. -/
theorem redisTtl_expire_self (s : RedisState) (k : String) (w : Nat) :
    redisTtl (redisExpire s k w) k = some w := by
  simp [redisTtl, redisExpire, List.find?_cons]

/-- The rate-limit call only ever touches the store through `INCR` and
`EXPIRE`, so its resulting store is the incremented one, with the expiry
set when the count reached 1. -/
theorem _enforce_rate_limit_snd (redis : RedisState)
    (purpose identifier : String) (L w : Nat) :
    (_enforce_rate_limit redis purpose identifier L w).2 =
      (if (redisIncr redis (rlKey purpose identifier)).2 = 1 then
        redisExpire (redisIncr redis (rlKey purpose identifier)).1
          (rlKey purpose identifier) w
      else (redisIncr redis (rlKey purpose identifier)).1) := by
  unfold _enforce_rate_limit
  by_cases h : (redisIncr redis (rlKey purpose identifier)).2 > L <;>
    simp [h]

/-- Counter invariant: starting from a window with no counter key, the
count stored after `k + 1` calls is `k + 1`. -/
theorem rateLimitSeq_count (purpose identifier : String) (L w : Nat)
    (s0 : RedisState)
    (h0 : redisGet s0 (rlKey purpose identifier) = none) :
    ∀ k : Nat, redisGet (rateLimitSeq purpose identifier L w (k + 1) s0)
      (rlKey purpose identifier) = some (.int (k + 1)) := by
  intro k
  induction k with
  | zero =>
    show redisGet (_enforce_rate_limit s0 purpose identifier L w).2 _ = _
    rw [_enforce_rate_limit_snd]
    have hcount : (redisIncr s0 (rlKey purpose identifier)).2 = 1 := by
      simp [redisIncr, h0]
    rw [if_pos hcount, redisGet_expire, redisGet_incr_self, hcount]
  | succ n ih =>
    show redisGet (_enforce_rate_limit
      (rateLimitSeq purpose identifier L w (n + 1) s0)
      purpose identifier L w).2 _ = _
    rw [_enforce_rate_limit_snd]
    have hcount : (redisIncr (rateLimitSeq purpose identifier L w (n + 1) s0)
        (rlKey purpose identifier)).2 = n + 2 := by
      simp [redisIncr, ih]
    rw [if_neg (by rw [hcount]; omega), redisGet_incr_self, hcount]

/-- C8: within one window (counter key initially absent), the
`k + 1`-st call to `_enforce_rate_limit` for the same `(purpose,
identifier)` and limit `L`: (a) fails with HTTP 429 "Rate limit exceeded"
exactly when its resulting count `k + 1` exceeds `L` and succeeds
otherwise — so the first `L` calls succeed and every later call fails;
(b) leaves the counter incremented to `k + 1`; and (c) the call that
performs the window's first increment sets the key's expiry to the
window. -/
theorem rate_limit_window_behavior (purpose identifier : String)
    (L w : Nat) (s0 : RedisState)
    (h0 : redisGet s0 (rlKey purpose identifier) = none) (k : Nat) :
    ((_enforce_rate_limit (rateLimitSeq purpose identifier L w k s0)
        purpose identifier L w).1 =
      if k + 1 > L then .error (.httpException 429 "Rate limit exceeded")
      else .ok ()) ∧
    redisGet (rateLimitSeq purpose identifier L w (k + 1) s0)
      (rlKey purpose identifier) = some (.int (k + 1)) ∧
    redisTtl (rateLimitSeq purpose identifier L w 1 s0)
      (rlKey purpose identifier) = some w := by
  refine ⟨?_, rateLimitSeq_count purpose identifier L w s0 h0 k, ?_⟩
  · have hcount : (redisIncr (rateLimitSeq purpose identifier L w k s0)
        (rlKey purpose identifier)).2 = k + 1 := by
      cases k with
      | zero => simp [rateLimitSeq, redisIncr, h0]
      | succ n =>
        simp [redisIncr, rateLimitSeq_count purpose identifier L w s0 h0 n]
    by_cases h : k + 1 > L <;> simp [_enforce_rate_limit, hcount, h]
  · show redisTtl (_enforce_rate_limit s0 purpose identifier L w).2 _ = _
    rw [_enforce_rate_limit_snd]
    have hcount : (redisIncr s0 (rlKey purpose identifier)).2 = 1 := by
      simp [redisIncr, h0]
    rw [if_pos hcount]
    exact redisTtl_expire_self _ _ _

/-- Witness for C8: with limit 2 in a fresh window, the first call
succeeds and sets the 60-second expiry, the third call fails with HTTP
429. -/
theorem rate_limit_window_behavior_witness :
    (_enforce_rate_limit (rateLimitSeq "login" "t1:a@b" 2 60 0 RedisState.empty)
        "login" "t1:a@b" 2 60).1 = .ok () ∧
    (_enforce_rate_limit (rateLimitSeq "login" "t1:a@b" 2 60 2 RedisState.empty)
        "login" "t1:a@b" 2 60).1 =
      .error (.httpException 429 "Rate limit exceeded") ∧
    redisTtl (rateLimitSeq "login" "t1:a@b" 2 60 1 RedisState.empty)
      (rlKey "login" "t1:a@b") = some 60 := by
  refine ⟨?_, ?_, ?_⟩
  · have h :=
      rate_limit_window_behavior "login" "t1:a@b" 2 60 RedisState.empty rfl 0
    simpa using h.1
  · have h :=
      rate_limit_window_behavior "login" "t1:a@b" 2 60 RedisState.empty rfl 2
    simpa using h.1
  · exact
      (rate_limit_window_behavior "login" "t1:a@b" 2 60 RedisState.empty
        rfl 0).2.2

/-! ## Tenant Resolver — `app/api/dependencies/tenant.py`

`get_current_tenant` resolves the acting tenant from the optional
`X-Tenant` header and the optional bearer token, binds the scope, yields,
and resets the scope in a `finally` (the binding discipline is the
`tenant_context` pattern proved above; here we model the resolution
outcome).  Header truthiness: an empty `X-Tenant` string is falsy in
Python and is treated as absent.  The bearer is modelled as the parsed
token of the `Authorization: Bearer ...` header when present. -/

/-- A row of the `tenants` table (the tenant entity itself is
cross-tenant: it carries no `TenantScopedMixin`). -/
structure Tenant where
  id : String
  slug : String
deriving DecidableEq, Repr

/-- `select(Tenant).execution_options(tenant_aware=False)
.where(Tenant.slug == x_tenant)` — an isolation-exempt slug lookup. -/
def findTenantBySlug (db : List Tenant) (slug : String) : Option Tenant :=
  db.find? fun t => t.slug == slug

/-- `db.get(Tenant, uuid.UUID(str(tenant_id)))`. -/
def findTenantById (db : List Tenant) (tid : String) : Option Tenant :=
  db.find? fun t => t.id == tid

/-- `get_current_tenant(request, db, settings, x_tenant)`: resolve via the
explicit selector when present (404 if unknown; 403 "Tenant mismatch" when
a bearer token decodes to a truthy tenant claim that differs from the
resolved tenant's id), else via the bearer token's tenant claim (401
"Tenant claim missing" when the claim is absent or falsy, 404 when the
claimed tenant does not exist), else 400 "Missing tenant identifier". -/
def get_current_tenant (db : List Tenant) (x_tenant : Option String)
    (bearer : Option Jwt) (now : Nat) : Except PyExc Tenant :=
  let xt : Option String :=
    match x_tenant with
    | some s => if s = "" then none else some s
    | none => none
  match xt with
  | some slug =>
    match findTenantBySlug db slug with
    | none => .error (.httpException 404 "Tenant not found")
    | some tenant =>
      match bearer with
      | none => .ok tenant
      | some tok =>
        match decode_token tok now with
        | .error e => .error (.httpException 401 (excMsg e))
        | .ok payload =>
          match payload.tenant_id with
          | none => .ok tenant
          | some claimed =>
            if claimed ≠ "" ∧ tenant.id ≠ claimed then
              .error (.httpException 403 "Tenant mismatch")
            else .ok tenant
  | none =>
    match bearer with
    | none => .error (.httpException 400 "Missing tenant identifier")
    | some tok =>
      match decode_token tok now with
      | .error e => .error (.httpException 401 (excMsg e))
      | .ok payload =>
        match payload.tenant_id with
        | none => .error (.httpException 401 "Tenant claim missing")
        | some tid =>
          if tid = "" then .error (.httpException 401 "Tenant claim missing")
          else
            match findTenantById db tid with
            | none => .error (.httpException 404 "Tenant not found")
            | some tenant => .ok tenant

/-- C7: an explicit tenant selector resolves to tenant `t`, and the bearer
token decodes successfully but claims a (truthy) tenant `B` different from
`t.id`: resolution fails with HTTP 403 "Tenant mismatch". -/
theorem selector_token_tenant_mismatch (db : List Tenant) (slug : String)
    (t : Tenant) (c : TokenClaims) (now : Nat) (B : String)
    (hslug : slug ≠ "")
    (hfound : findTenantBySlug db slug = some t)
    (hexp : now < c.exp)
    (hclaim : c.tenant_id = some B)
    (hB : B ≠ "")
    (hmismatch : t.id ≠ B) :
    get_current_tenant db (some slug) (some (.signed c)) now =
      .error (.httpException 403 "Tenant mismatch") := by
  simp [get_current_tenant, hslug, hfound, decode_token,
    Nat.not_le.mpr hexp, hclaim, hB, hmismatch]

/-- Witness for C7: selector `"acme"` resolves to the acme tenant while
the token claims tenant id `"widgets-id"`. -/
theorem selector_token_tenant_mismatch_witness :
    get_current_tenant [⟨"acme-id", "acme"⟩] (some "acme")
        (some (.signed ⟨"u1", some "widgets-id", "access", 100, "j1"⟩)) 5 =
      .error (.httpException 403 "Tenant mismatch") :=
  selector_token_tenant_mismatch [⟨"acme-id", "acme"⟩] "acme"
    ⟨"acme-id", "acme"⟩ ⟨"u1", some "widgets-id", "access", 100, "j1"⟩ 5
    "widgets-id" (by decide) rfl (by decide) rfl (by decide) (by decide)

/-- C10: an explicit tenant selector resolves to tenant `t`, and the
bearer token decodes successfully but carries no tenant claim (absent or
empty): resolution succeeds with the selector's tenant and no mismatch or
missing-claim failure is raised. -/
theorem selector_token_without_claim_resolves (db : List Tenant)
    (slug : String) (t : Tenant) (c : TokenClaims) (now : Nat)
    (hslug : slug ≠ "")
    (hfound : findTenantBySlug db slug = some t)
    (hexp : now < c.exp)
    (hclaim : c.tenant_id = none ∨ c.tenant_id = some "") :
    get_current_tenant db (some slug) (some (.signed c)) now = .ok t := by
  rcases hclaim with h | h <;>
    simp [get_current_tenant, hslug, hfound, decode_token,
      Nat.not_le.mpr hexp, h]

/-- Witness for C10: both the absent claim and the empty claim resolve to
the selector's tenant. -/
theorem selector_token_without_claim_resolves_witness :
    get_current_tenant [⟨"acme-id", "acme"⟩] (some "acme")
        (some (.signed ⟨"u1", none, "access", 100, "j1"⟩)) 5 =
      .ok ⟨"acme-id", "acme"⟩ ∧
    get_current_tenant [⟨"acme-id", "acme"⟩] (some "acme")
        (some (.signed ⟨"u1", some "", "access", 100, "j1"⟩)) 5 =
      .ok ⟨"acme-id", "acme"⟩ := by
  constructor
  · exact selector_token_without_claim_resolves [⟨"acme-id", "acme"⟩] "acme"
      ⟨"acme-id", "acme"⟩ ⟨"u1", none, "access", 100, "j1"⟩ 5
      (by decide) rfl (by decide) (Or.inl rfl)
  · exact selector_token_without_claim_resolves [⟨"acme-id", "acme"⟩] "acme"
      ⟨"acme-id", "acme"⟩ ⟨"u1", some "", "access", 100, "j1"⟩ 5
      (by decide) rfl (by decide) (Or.inr rfl)
